import Mathlib

/-
Verification of the merge engine of the wifi-sort-tool repository
(kismet-merge.py), as a shallow embedding in Lean 4.

Modelling conventions:
* A Kismet device JSON document is modelled by the structure `Device`,
  holding exactly the dotted keys the program reads or writes, each as an
  `Option` (a Python `dict.get` miss is `none`); a `get(k, d)` is
  `Option.getD`.  JSON numbers are modelled as `Int` (Python ints are
  unbounded; no claim involves fractional values).
* A nested block (`kismet.device.base.signal`, `kismet.device.base.location`,
  and the location fixes) is an `Option` of a structure; Python dict
  truthiness ("non-empty dict") is computed by a `...Truthy` function, where
  the `hasOther` field records whether the dict holds keys beyond the
  modelled ones (which would make it truthy).
* Rows of the auxiliary sqlite tables are association lists of column name
  to `Cell`.  A source `.kismet` file is a `Source`: a readability flag
  (`sqlite3.Error` on open/read makes the whole file skipped), the parsed
  rows of its `devices` table (`none` marks a row whose JSON payload fails
  to parse), and its other tables by name.
* Python's insertion-ordered dict `merged_devices` is an association list;
  an update keeps the key's position, an insert appends.
* Console output is modelled as a log of strings threaded next to the
  state, so that the effect of the `verbose` flag is expressible; messages
  carry the same data as the `print` calls.  The destination file is
  modelled by `destinationAfter`: the program unlinks and rewrites the
  output path only on the success path (after the early `return False`),
  so on failure a pre-existing file survives.
* Out-of-range list indexing inside geopoint extraction (which would raise
  in Python on a malformed geopoint) is modelled totally with `List.getD`;
  all inputs considered here carry well-formed two-element geopoints.
-/

/-- Signal block: `kismet.common.signal.*` keys of the
`kismet.device.base.signal` dict. -/
structure SignalB where
  max_signal : Option Int
  min_signal : Option Int
  last_signal : Option Int
  hasOther : Bool
deriving DecidableEq, Repr

/-- Location fix: one of the `avg_loc` / `min_loc` / `max_loc` dicts, with its
`kismet.common.location.geopoint` list. -/
structure LocFix where
  geopoint : Option (List Int)
  hasOther : Bool
deriving DecidableEq, Repr

/-- Location block: the `kismet.device.base.location` dict. -/
structure LocationB where
  avg_loc : Option LocFix
  min_loc : Option LocFix
  max_loc : Option LocFix
  hasOther : Bool
deriving DecidableEq, Repr

/-- Device JSON document restricted to the dotted keys kismet-merge.py reads
or writes: `kismet.device.base.macaddr`, `.key`, `.phyname`, `.type`,
`.packets.total`, `.packets.data`, `.datasize`, `.first_time`, `.last_time`,
`.signal`, `.location`.  Unrecognized keys pass through untouched on the
existing side and are not modelled. -/
structure Device where
  macaddr : Option String
  key : Option String
  phyname : Option String
  dtype : Option String
  packets_total : Option Int
  packets_data : Option Int
  datasize : Option Int
  first_time : Option Int
  last_time : Option Int
  signal : Option SignalB
  location : Option LocationB
deriving DecidableEq, Repr

/-- Python truthiness of the signal dict obtained by
`d.get('kismet.device.base.signal', {})`: an absent or empty dict is falsy. -/
def sigTruthy : Option SignalB → Bool
  | none => false
  | some b => b.max_signal.isSome || b.min_signal.isSome ||
      b.last_signal.isSome || b.hasOther

/-- Python truthiness of a location fix dict. -/
def locFixTruthy (f : LocFix) : Bool :=
  f.geopoint.isSome || f.hasOther

/-- Python truthiness of the location dict obtained by
`d.get('kismet.device.base.location', {})`. -/
def locTruthy : Option LocationB → Bool
  | none => false
  | some l => l.avg_loc.isSome || l.min_loc.isSome || l.max_loc.isSome ||
      l.hasOther

/-- Truthiness of `loc.get('kismet.common.location.avg_loc')` (the value, not
mere key presence: an empty avg_loc dict is falsy). -/
def avgLocTruthy : Option LocationB → Bool
  | none => false
  | some l =>
    match l.avg_loc with
    | none => false
    | some f => locFixTruthy f

/-- First-time step of `merge_device_json` (lines 43-50): when the incoming
value is positive, adopt it if the existing one is zero/absent, else take
the minimum; otherwise leave the existing field untouched. -/
def ftMerge (e n : Option Int) : Option Int :=
  if n.getD 0 > 0 then
    some (if e.getD 0 = 0 then n.getD 0 else min (e.getD 0) (n.getD 0))
  else e

/-- Max-signal update (lines 67-71): the new value is adopted when present
and strictly greater, or when the existing one is absent; the result is the
maximum with an absent side ignored. -/
def optMax (x y : Option Int) : Option Int :=
  match y with
  | none => x
  | some b =>
    match x with
    | none => some b
    | some a => some (max a b)

/-- Min-signal update (lines 74-78), dually. -/
def optMin (x y : Option Int) : Option Int :=
  match y with
  | none => x
  | some b =>
    match x with
    | none => some b
    | some a => some (min a b)

/-- Last-signal update (lines 80-83).  By line 81 the record-level
`existing['kismet.device.base.last_time']` has already been replaced (line
53) with the max of the two sides, so the transcription of the comparison
`new_last >= existing_last` is `nlt >= max elt nlt` in terms of the two
original record-level last times `elt` and `nlt`. -/
def lastSigMerge (elt nlt : Int) (el nl : Option Int) : Option Int :=
  if nlt ≥ max elt nlt then
    match nl with
    | none => el
    | some v => some v
  else el

/-- Elementwise combination of two truthy signal blocks (lines 65-85): the
Python code mutates the existing block field by field, so unrecognized keys
(`hasOther`) stay those of the existing side. -/
def sigMergeB (elt nlt : Int) (eb nb : SignalB) : SignalB :=
  ⟨optMax eb.max_signal nb.max_signal, optMin eb.min_signal nb.min_signal,
   lastSigMerge elt nlt eb.last_signal nb.last_signal, eb.hasOther⟩

/-- Signal step of `merge_device_json` (lines 58-85): a falsy incoming
block leaves the existing one untouched; a truthy incoming block replaces a
falsy existing one wholesale, and is otherwise combined elementwise. -/
def sigMerge (elt nlt : Int) (es ns : Option SignalB) : Option SignalB :=
  if sigTruthy ns then
    if !sigTruthy es then ns
    else some (sigMergeB elt nlt (es.getD ⟨none, none, none, false⟩)
      (ns.getD ⟨none, none, none, false⟩))
  else es

/-- Location step of `merge_device_json` (lines 87-93): the incoming
location block is adopted wholesale when it carries a truthy averaged fix
and the existing one does not; there is no componentwise combination. -/
def locMerge (el nl : Option LocationB) : Option LocationB :=
  if locTruthy nl && avgLocTruthy nl then
    (if !locTruthy el || !avgLocTruthy el then nl else el)
  else el

/-- Embedding of `merge_device_json(existing, new)` (kismet-merge.py lines
25-95).  The Python function mutates `existing` field by field; every key
the function does not assign keeps the existing side's value.  The field
steps are the functions above, each transcribing its line range; the only
cross-field interaction in the source - the signal step reading the
already-updated record-level last time - is folded into `lastSigMerge`. -/
def merge_device_json (existing new : Device) : Device :=
  { existing with
    packets_total := some (existing.packets_total.getD 0 + new.packets_total.getD 0),
    packets_data := some (existing.packets_data.getD 0 + new.packets_data.getD 0),
    datasize := some (existing.datasize.getD 0 + new.datasize.getD 0),
    first_time := ftMerge existing.first_time new.first_time,
    last_time := some (max (existing.last_time.getD 0) (new.last_time.getD 0)),
    signal := sigMerge (existing.last_time.getD 0) (new.last_time.getD 0)
      existing.signal new.signal,
    location := locMerge existing.location new.location }

/-- Embedding of `get_device_key` (lines 98-100). -/
def get_device_key (device_json : Device) : String :=
  device_json.macaddr.getD ""

/-- Cell of a sqlite row: an integer, a string, or (in the destination
devices table only) the serialized device document blob. -/
inductive Cell where
  | i (n : Int)
  | s (v : String)
  | b (d : Device)
deriving DecidableEq, Repr

/-- Row of a sqlite table, as built by `dict(zip(columns, row))`. -/
abbrev Row := List (String × Cell)

/-- Output database: table name to rows, in creation order. -/
abbrev Output := List (String × List Row)

/-- Source `.kismet` file as seen by `merge_kismet_files`: `readable` is
false when sqlite raises for this file (the whole file is then skipped with
a warning); `hasDevices` states whether `devices` is among its table names;
`deviceRows` holds the JSON payloads of the devices table in storage order,
`none` marking a row whose payload fails to parse; `otherTables` holds
every non-devices table by name with its rows. -/
structure Source where
  path : String
  readable : Bool
  hasDevices : Bool
  deviceRows : List (Option Device)
  otherTables : List (String × List Row)
deriving DecidableEq, Repr

/-- Accumulated in-memory state of `merge_kismet_files` (lines 107-119):
the insertion-ordered dict `merged_devices`, the statistics counters, and
the four lists of `other_data`. -/
structure MState where
  merged_devices : List (String × Device)
  total_raw : Nat
  files_processed : Nat
  snapshots : List Row
  packets : List Row
  dataRows : List Row
  alerts : List Row
deriving DecidableEq, Repr

/-- Initial state (lines 107-119). -/
def initState : MState := ⟨[], 0, 0, [], [], [], []⟩

/-- Replace the value stored under key `k`, keeping its position, exactly as
a Python dict assignment to an existing key does. -/
def updateAssoc (m : List (String × Device)) (k : String) (f : Device → Device) :
    List (String × Device) :=
  m.map fun p => if p.1 = k then (p.1, f p.2) else p

/-- Body of the per-device-row loop (lines 139-158): a row whose JSON fails
to parse is skipped; a row whose key is empty is skipped by
`if not mac: continue`; otherwise the row is merged into the dict entry for
its key, or inserted, and `total_raw` is incremented. -/
def processDeviceRow (st : MState) (r : Option Device) : MState :=
  match r with
  | none => st
  | some device_json =>
    let mac := get_device_key device_json
    if mac = "" then st
    else
      let md :=
        if (st.merged_devices.lookup mac).isSome then
          updateAssoc st.merged_devices mac (fun old => merge_device_json old device_json)
        else
          st.merged_devices ++ [(mac, device_json)]
      { st with merged_devices := md, total_raw := st.total_raw + 1 }

/-- Append rows to the `other_data` list named `name` (line 172); any other
name has no list and is untouched. -/
def addRows (st : MState) (name : String) (rows : List Row) : MState :=
  if name = "snapshots" then { st with snapshots := st.snapshots ++ rows }
  else if name = "packets" then { st with packets := st.packets ++ rows }
  else if name = "data" then { st with dataRows := st.dataRows ++ rows }
  else if name = "alerts" then { st with alerts := st.alerts ++ rows }
  else st

/-- Collection loop over the four recognized auxiliary tables
(lines 164-174): each is read only when present among the source's tables. -/
def collectOther (st : MState) (src : Source) : MState :=
  ["snapshots", "packets", "data", "alerts"].foldl
    (fun st name =>
      match src.otherTables.lookup name with
      | some rows => addRows st name rows
      | none => st)
    st

/-- Per-source step of the orchestrator (lines 121-181), state component
only: an unreadable source leaves the state unchanged; otherwise the
devices table (when present) is folded row by row, the four auxiliary
tables are collected, and `files_processed` is incremented. -/
def processSource (st : MState) (src : Source) : MState :=
  if src.readable then
    let st := if src.hasDevices then src.deviceRows.foldl processDeviceRow st else st
    let st := collectOther st src
    { st with files_processed := st.files_processed + 1 }
  else st

/-- State accumulated over all sources, in input order. -/
def accumState (sources : List Source) : MState :=
  sources.foldl processSource initState

/-- Number of devices rows of a source that survive the key check, i.e. the
value of the per-file counter `file_count` after the loop. -/
def fileCount (src : Source) : Nat :=
  (src.deviceRows.filter fun r =>
    match r with
    | none => false
    | some d => get_device_key d ≠ "").length

/-- Per-device-row step together with its console output: parsing warnings
are printed only under `verbose` (lines 155-158). -/
def processDeviceRowV (verbose : Bool) (p : MState × List String) (r : Option Device) :
    MState × List String :=
  (processDeviceRow p.1 r,
   p.2 ++ match r with
     | none => if verbose then ["  Warning: Could not parse device"] else []
     | some _ => [])

/-- Per-source step together with its console output (lines 121-181):
`Reading:` under `verbose`, per-row warnings, the per-file device count
under `verbose`, and the unconditional stderr line for an unreadable
source. -/
def processSourceV (verbose : Bool) (p : MState × List String) (src : Source) :
    MState × List String :=
  let log0 := p.2 ++ (if verbose then ["Reading: " ++ src.path] else [])
  if src.readable then
    let devPart :=
      if src.hasDevices then
        let q := src.deviceRows.foldl (processDeviceRowV verbose) (p.1, log0)
        (q.1, q.2 ++ (if verbose then
          ["  -> " ++ toString (fileCount src) ++ " devices"] else []))
      else (p.1, log0)
    let st2 := collectOther devPart.1 src
    ({ st2 with files_processed := st2.files_processed + 1 }, devPart.2)
  else (p.1, log0 ++ ["Error reading " ++ src.path])

/-- Synthetic metadata row inserted into the KISMET table (lines 271-274);
`now` stands for `datetime.now().isoformat()`. -/
def kismetRow (now : String) : Row :=
  [("kismet_version", Cell.s "merged"), ("build_uuid", Cell.s "wifi-sort-merge"),
   ("build_compile", Cell.s now), ("db_version", Cell.i 6)]

/-- Destination devices-table row built from a merged document
(lines 227-260), in the column order of the INSERT statement; the `device`
column holds the serialized document. -/
def deviceOutRow (d : Device) : Row :=
  let signal := d.signal
  let strongest_signal : Int :=
    match signal with
    | none => 0
    | some b => b.max_signal.getD 0
  let geopoint : List Int :=
    match d.location.bind (fun l => l.avg_loc) with
    | none => [0, 0]
    | some f => f.geopoint.getD [0, 0]
  let fixLat : Option LocFix → Int := fun o =>
    match o with
    | none => 0
    | some f => if locFixTruthy f then (f.geopoint.getD [0, 0]).getD 1 0 else 0
  let fixLon : Option LocFix → Int := fun o =>
    match o with
    | none => 0
    | some f => if locFixTruthy f then (f.geopoint.getD [0, 0]).getD 0 0 else 0
  [("first_time", Cell.i (d.first_time.getD 0)),
   ("last_time", Cell.i (d.last_time.getD 0)),
   ("devkey", Cell.s (d.key.getD "")),
   ("phyname", Cell.s (d.phyname.getD "")),
   ("devmac", Cell.s (d.macaddr.getD "")),
   ("strongest_signal", Cell.i strongest_signal),
   ("min_lat", Cell.i (fixLat (d.location.bind (fun l => l.min_loc)))),
   ("min_lon", Cell.i (fixLon (d.location.bind (fun l => l.min_loc)))),
   ("max_lat", Cell.i (fixLat (d.location.bind (fun l => l.max_loc)))),
   ("max_lon", Cell.i (fixLon (d.location.bind (fun l => l.max_loc)))),
   ("avg_lat", Cell.i (geopoint.getD 1 0)),
   ("avg_lon", Cell.i (geopoint.getD 0 0)),
   ("bytes_data", Cell.i (d.datasize.getD 0)),
   ("type", Cell.s (d.dtype.getD "")),
   ("device", Cell.b d)]

/-- Destination database produced by the write phase (lines 190-277): the
devices table holding every merged document in dict order, and the KISMET
table holding the single synthetic metadata row. -/
def writeOutput (st : MState) (now : String) : Output :=
  [("devices", st.merged_devices.map (fun p => deviceOutRow p.2)),
   ("KISMET", [kismetRow now])]

/-- Embedding of `merge_kismet_files(input_files, output_file, verbose)`
(lines 103-283): the result is `none` for the `return False` at line 185
(no devices accumulated) and otherwise the written output database,
together with the console log. -/
def merge_kismet_files (sources : List Source) (verbose : Bool) (now : String) :
    Option Output × List String :=
  let p := sources.foldl (processSourceV verbose) (initState, [])
  let st := p.1
  if st.merged_devices.isEmpty then
    (none, p.2 ++ ["Error: No devices found in input files"])
  else
    let log := p.2 ++ (if verbose then
      ["Merging " ++ toString st.total_raw ++ " total entries -> " ++
        toString st.merged_devices.length ++ " unique devices"] else [])
    let out := writeOutput st now
    let log := log ++ (if verbose then
      ["Created output",
       "  " ++ toString st.merged_devices.length ++ " devices from " ++
         toString st.files_processed ++ " files"] else [])
    (some out, log)

/-- Content of the destination path after a run, given its previous content
`pre`: the path is unlinked and recreated only on the success path (the
`Path(output_file).unlink()` at line 192 sits after the early
`return False` at line 185), so a failed run leaves `pre` untouched. -/
def destinationAfter (pre : Option Output) (sources : List Source)
    (verbose : Bool) (now : String) : Option Output :=
  match (merge_kismet_files sources verbose now).1 with
  | none => pre
  | some out => some out

/-- Glob-expansion loop of `main` (lines 312-320): each pattern contributes
its expansion, or itself when it expands to nothing but names an existing
file; `expand` and `fexists` stand for `glob.glob` and `Path.exists`. -/
def rawInputs (expand : String → List String) (fexists : String → Bool)
    (patterns : List String) : List String :=
  patterns.foldl
    (fun acc p =>
      match expand p with
      | [] => if fexists p then acc ++ [p] else acc
      | l => acc ++ l)
    []

/-- Embedding of `list(dict.fromkeys(input_files))` (line 323): keep the
first occurrence of each string, preserving order. -/
def dedupKeepFirst (l : List String) : List String :=
  l.foldl (fun acc x => if x ∈ acc then acc else acc ++ [x]) []

/-- Modelled from the spec and claim wording only, for comparison with
`dedupKeepFirst`: the canonical first-occurrence subsequence of a list. -/
def dedupSpec : List String → List String
  | [] => []
  | x :: xs => x :: dedupSpec (xs.filter (fun y => y ≠ x))
termination_by l => l.length
decreasing_by
  exact Nat.lt_succ_of_le (List.length_filter_le _ _)

/-- Input list handed to the merge by `main` (lines 312-326): glob
expansion, exact-string de-duplication, then removal of entries resolving
to the output path; `res` stands for `Path.resolve`. -/
def resolveInputs (expand : String → List String) (fexists : String → Bool)
    (res : String → String) (patterns : List String) (output : String) :
    List String :=
  (dedupKeepFirst (rawInputs expand fexists patterns)).filter
    (fun f => res f ≠ res output)

/-- Max-signal value carried by a device record, absent when the record has
no signal block or the block lacks the key. -/
def sigMaxD (d : Device) : Option Int :=
  d.signal.bind SignalB.max_signal

/-- Min-signal value carried by a device record. -/
def sigMinD (d : Device) : Option Int :=
  d.signal.bind SignalB.min_signal

/-- Last-signal value carried by a device record. -/
def sigLastD (d : Device) : Option Int :=
  d.signal.bind SignalB.last_signal

theorem optMax_none_left (y : Option Int) : optMax none y = y := by
  cases y <;> rfl

theorem optMax_none_right (x : Option Int) : optMax x none = x := rfl

theorem optMin_none_left (y : Option Int) : optMin none y = y := by
  cases y <;> rfl

theorem optMin_none_right (x : Option Int) : optMin x none = x := rfl

theorem sigTruthy_false_fields {ns : Option SignalB} (h : sigTruthy ns = false) :
    ns.bind SignalB.max_signal = none ∧ ns.bind SignalB.min_signal = none ∧
      ns.bind SignalB.last_signal = none := by
  rcases ns with _ | ⟨m, mi, l, o⟩
  · exact ⟨rfl, rfl, rfl⟩
  · rcases m with _ | m <;> rcases mi with _ | mi <;> rcases l with _ | l <;>
      simp_all [sigTruthy]

theorem sigTruthy_isSome {es : Option SignalB} (h : sigTruthy es = true) :
    ∃ eb, es = some eb := by
  rcases es with _ | eb
  · simp [sigTruthy] at h
  · exact ⟨eb, rfl⟩

theorem sigMerge_bind_max (elt nlt : Int) (es ns : Option SignalB) :
    (sigMerge elt nlt es ns).bind SignalB.max_signal =
      optMax (es.bind SignalB.max_signal) (ns.bind SignalB.max_signal) := by
  unfold sigMerge
  by_cases hn : sigTruthy ns = true
  · by_cases he : sigTruthy es = true
    · obtain ⟨eb, rfl⟩ := sigTruthy_isSome he
      obtain ⟨nb, rfl⟩ := sigTruthy_isSome hn
      simp [he, hn, sigMergeB]
    · obtain ⟨h1, -, -⟩ :=
        sigTruthy_false_fields (Bool.not_eq_true _ ▸ he)
      simp [hn, Bool.not_eq_true _ ▸ he, h1, optMax_none_left]
  · obtain ⟨h1, -, -⟩ := sigTruthy_false_fields (Bool.not_eq_true _ ▸ hn)
    simp [Bool.not_eq_true _ ▸ hn, h1, optMax_none_right]

theorem sigMerge_bind_min (elt nlt : Int) (es ns : Option SignalB) :
    (sigMerge elt nlt es ns).bind SignalB.min_signal =
      optMin (es.bind SignalB.min_signal) (ns.bind SignalB.min_signal) := by
  unfold sigMerge
  by_cases hn : sigTruthy ns = true
  · by_cases he : sigTruthy es = true
    · obtain ⟨eb, rfl⟩ := sigTruthy_isSome he
      obtain ⟨nb, rfl⟩ := sigTruthy_isSome hn
      simp [he, hn, sigMergeB]
    · obtain ⟨-, h1, -⟩ :=
        sigTruthy_false_fields (Bool.not_eq_true _ ▸ he)
      simp [hn, Bool.not_eq_true _ ▸ he, h1, optMin_none_left]
  · obtain ⟨-, h1, -⟩ := sigTruthy_false_fields (Bool.not_eq_true _ ▸ hn)
    simp [Bool.not_eq_true _ ▸ hn, h1, optMin_none_right]

theorem sigMaxD_merge (e n : Device) :
    sigMaxD (merge_device_json e n) = optMax (sigMaxD e) (sigMaxD n) :=
  sigMerge_bind_max (e.last_time.getD 0) (n.last_time.getD 0) e.signal n.signal

theorem sigMinD_merge (e n : Device) :
    sigMinD (merge_device_json e n) = optMin (sigMinD e) (sigMinD n) :=
  sigMerge_bind_min (e.last_time.getD 0) (n.last_time.getD 0) e.signal n.signal

theorem optMax_comm (x y : Option Int) : optMax x y = optMax y x := by
  rcases x with _ | a <;> rcases y with _ | b <;> simp [optMax]
  omega

theorem optMax_assoc (x y z : Option Int) :
    optMax (optMax x y) z = optMax x (optMax y z) := by
  rcases x with _ | a <;> rcases y with _ | b <;> rcases z with _ | c <;>
    simp [optMax, max_assoc]

theorem optMin_comm (x y : Option Int) : optMin x y = optMin y x := by
  rcases x with _ | a <;> rcases y with _ | b <;> simp [optMin]
  omega

theorem optMin_assoc (x y z : Option Int) :
    optMin (optMin x y) z = optMin x (optMin y z) := by
  rcases x with _ | a <;> rcases y with _ | b <;> rcases z with _ | c <;>
    simp [optMin, min_assoc]

theorem ftMerge_swap (x y z : Option Int) (hx : 0 ≤ x.getD 0)
    (hy : 0 ≤ y.getD 0) (hz : 0 ≤ z.getD 0) :
    ftMerge (ftMerge x y) z = ftMerge (ftMerge x z) y := by
  rcases x with _ | a <;> rcases y with _ | b <;> rcases z with _ | c <;>
    simp only [ftMerge, Option.getD_some, Option.getD_none] <;>
    split_ifs <;>
    first
      | rfl
      | (simp_all only [Option.getD_some, Option.getD_none, Option.some.injEq,
          min_def] <;> (try split_ifs) <;> omega)
      | (exfalso; simp_all)

theorem ftMerge_assoc (x y z : Option Int) (hx : 0 ≤ x.getD 0)
    (hy : 0 ≤ y.getD 0) (hz : 0 ≤ z.getD 0) :
    ftMerge (ftMerge x y) z = ftMerge x (ftMerge y z) := by
  rcases x with _ | a <;> rcases y with _ | b <;> rcases z with _ | c <;>
    simp only [ftMerge, Option.getD_some, Option.getD_none] <;>
    split_ifs <;>
    first
      | rfl
      | (simp_all only [Option.getD_some, Option.getD_none, Option.some.injEq,
          min_def] <;> (try split_ifs) <;> omega)
      | (exfalso; simp_all)

theorem lastSigMerge_eq (elt nlt : Int) (el nl : Option Int) :
    lastSigMerge elt nlt el nl =
      if elt ≤ nlt then (if nl.isSome then nl else el) else el := by
  unfold lastSigMerge
  by_cases h : elt ≤ nlt
  · have hc : nlt ≥ max elt nlt := by
      simp only [ge_iff_le, max_le_iff, le_refl, and_true]
      exact h
    rw [if_pos hc, if_pos h]
    rcases nl with _ | v <;> simp
  · have hc : ¬ nlt ≥ max elt nlt := by
      simp only [ge_iff_le, max_le_iff, le_refl, and_true]
      exact h
    rw [if_neg hc, if_neg h]

theorem sigMerge_bind_last (elt nlt : Int) (es ns : Option SignalB)
    (he : sigTruthy es = true) (hn : sigTruthy ns = true) :
    (sigMerge elt nlt es ns).bind SignalB.last_signal =
      if elt ≤ nlt then
        (if (ns.bind SignalB.last_signal).isSome then ns.bind SignalB.last_signal
         else es.bind SignalB.last_signal)
      else es.bind SignalB.last_signal := by
  obtain ⟨eb, rfl⟩ := sigTruthy_isSome he
  obtain ⟨nb, rfl⟩ := sigTruthy_isSome hn
  unfold sigMerge
  simp [he, hn, sigMergeB, lastSigMerge_eq]

theorem sigLastD_merge_isSome (e n : Device) (he : sigTruthy e.signal = true)
    (hn : sigTruthy n.signal = true)
    (pe : (sigLastD e).isSome = true) :
    (sigLastD (merge_device_json e n)).isSome = true := by
  show ((sigMerge (e.last_time.getD 0) (n.last_time.getD 0)
    e.signal n.signal).bind SignalB.last_signal).isSome = true
  rw [sigMerge_bind_last _ _ _ _ he hn]
  split_ifs <;> simp_all [sigLastD]

theorem sigTruthy_of_last {s : Option SignalB}
    (h : (s.bind SignalB.last_signal).isSome = true) : sigTruthy s = true := by
  rcases s with _ | b
  · simp at h
  · simp_all [sigTruthy]

theorem sigTruthy_merge (e n : Device) (he : sigTruthy e.signal = true)
    (hn : sigTruthy n.signal = true)
    (pe : (sigLastD e).isSome = true) :
    sigTruthy (merge_device_json e n).signal = true :=
  sigTruthy_of_last (sigLastD_merge_isSome e n he hn pe)

theorem sigLastD_merge (e n : Device) (he : sigTruthy e.signal = true)
    (hn : sigTruthy n.signal = true) (pn : (sigLastD n).isSome = true) :
    sigLastD (merge_device_json e n) =
      if e.last_time.getD 0 ≤ n.last_time.getD 0 then sigLastD n
      else sigLastD e := by
  show (sigMerge (e.last_time.getD 0) (n.last_time.getD 0)
    e.signal n.signal).bind SignalB.last_signal = _
  rw [sigMerge_bind_last _ _ _ _ he hn]
  simp only [sigLastD] at pn ⊢
  split_ifs <;> simp_all

theorem merge_last_time (e n : Device) :
    (merge_device_json e n).last_time =
      some (max (e.last_time.getD 0) (n.last_time.getD 0)) := rfl

theorem foldDeviceRowsV_fst (verbose : Bool) (rows : List (Option Device)) :
    ∀ p : MState × List String,
      (rows.foldl (processDeviceRowV verbose) p).1 =
        rows.foldl processDeviceRow p.1 := by
  induction rows with
  | nil => intro p; rfl
  | cons r rest ih =>
    intro p
    simp only [List.foldl_cons]
    exact ih (processDeviceRowV verbose p r)

theorem processSourceV_fst (verbose : Bool) (p : MState × List String)
    (src : Source) :
    (processSourceV verbose p src).1 = processSource p.1 src := by
  unfold processSourceV processSource
  by_cases hr : src.readable = true
  · simp only [hr, if_true]
    by_cases hd : src.hasDevices = true
    · simp only [hd, if_true, foldDeviceRowsV_fst]
    · simp only [hd, Bool.false_eq_true, if_false]
  · simp only [hr, Bool.false_eq_true, if_false]

theorem foldSourcesV_fst (verbose : Bool) (sources : List Source) :
    ∀ p : MState × List String,
      (sources.foldl (processSourceV verbose) p).1 =
        sources.foldl processSource p.1 := by
  induction sources with
  | nil => intro p; rfl
  | cons src rest ih =>
    intro p
    simp only [List.foldl_cons]
    rw [ih (processSourceV verbose p src), processSourceV_fst]

theorem merge_kismet_files_fst (sources : List Source) (verbose : Bool)
    (now : String) :
    (merge_kismet_files sources verbose now).1 =
      if (accumState sources).merged_devices.isEmpty then none
      else some (writeOutput (accumState sources) now) := by
  simp only [merge_kismet_files]
  rw [foldSourcesV_fst]
  show (if (accumState sources).merged_devices.isEmpty then _ else _ : Option Output × List String).1 = _
  split <;> rfl

/-- Rows contributed to one `other_data` list by a list of sources: per
readable source, the rows of its table of that name, concatenated in
source order. -/
def tableConcat (name : String) : List Source → List Row
  | [] => []
  | s :: rest =>
    (if s.readable then (s.otherTables.lookup name).getD [] else []) ++
      tableConcat name rest

theorem processDeviceRow_other (st : MState) (r : Option Device) :
    (processDeviceRow st r).snapshots = st.snapshots ∧
      (processDeviceRow st r).packets = st.packets ∧
      (processDeviceRow st r).dataRows = st.dataRows ∧
      (processDeviceRow st r).alerts = st.alerts := by
  unfold processDeviceRow
  rcases r with _ | d
  · exact ⟨rfl, rfl, rfl, rfl⟩
  · dsimp only
    split_ifs <;> exact ⟨rfl, rfl, rfl, rfl⟩

theorem foldDeviceRows_other (rows : List (Option Device)) :
    ∀ st : MState,
      (rows.foldl processDeviceRow st).snapshots = st.snapshots ∧
        (rows.foldl processDeviceRow st).packets = st.packets ∧
        (rows.foldl processDeviceRow st).dataRows = st.dataRows ∧
        (rows.foldl processDeviceRow st).alerts = st.alerts := by
  induction rows with
  | nil => intro st; exact ⟨rfl, rfl, rfl, rfl⟩
  | cons r rest ih =>
    intro st
    simp only [List.foldl_cons]
    obtain ⟨i1, i2, i3, i4⟩ := ih (processDeviceRow st r)
    obtain ⟨j1, j2, j3, j4⟩ := processDeviceRow_other st r
    exact ⟨i1.trans j1, i2.trans j2, i3.trans j3, i4.trans j4⟩

theorem collectOther_fields (st : MState) (src : Source) :
    (collectOther st src).merged_devices = st.merged_devices ∧
      (collectOther st src).total_raw = st.total_raw ∧
      (collectOther st src).files_processed = st.files_processed ∧
      (collectOther st src).snapshots =
        st.snapshots ++ (src.otherTables.lookup "snapshots").getD [] ∧
      (collectOther st src).packets =
        st.packets ++ (src.otherTables.lookup "packets").getD [] ∧
      (collectOther st src).dataRows =
        st.dataRows ++ (src.otherTables.lookup "data").getD [] ∧
      (collectOther st src).alerts =
        st.alerts ++ (src.otherTables.lookup "alerts").getD [] := by
  unfold collectOther
  simp only [List.foldl_cons, List.foldl_nil]
  rcases h1 : src.otherTables.lookup "snapshots" with _ | r1 <;>
    rcases h2 : src.otherTables.lookup "packets" with _ | r2 <;>
    rcases h3 : src.otherTables.lookup "data" with _ | r3 <;>
    rcases h4 : src.otherTables.lookup "alerts" with _ | r4 <;>
    simp [addRows]

theorem processSource_tables (st : MState) (src : Source) :
    (processSource st src).snapshots =
        st.snapshots ++
          (if src.readable then (src.otherTables.lookup "snapshots").getD [] else []) ∧
      (processSource st src).packets =
        st.packets ++
          (if src.readable then (src.otherTables.lookup "packets").getD [] else []) ∧
      (processSource st src).dataRows =
        st.dataRows ++
          (if src.readable then (src.otherTables.lookup "data").getD [] else []) ∧
      (processSource st src).alerts =
        st.alerts ++
          (if src.readable then (src.otherTables.lookup "alerts").getD [] else []) := by
  unfold processSource
  by_cases hr : src.readable = true
  · simp only [hr, if_true]
    by_cases hd : src.hasDevices = true
    · simp only [hd, if_true]
      obtain ⟨f1, f2, f3, f4⟩ := foldDeviceRows_other src.deviceRows st
      obtain ⟨-, -, -, c4, c5, c6, c7⟩ :=
        collectOther_fields (src.deviceRows.foldl processDeviceRow st) src
      exact ⟨by simp only [c4, f1], by simp only [c5, f2],
        by simp only [c6, f3], by simp only [c7, f4]⟩
    · simp only [hd, Bool.false_eq_true, if_false]
      obtain ⟨-, -, -, c4, c5, c6, c7⟩ := collectOther_fields st src
      exact ⟨by simp only [c4], by simp only [c5],
        by simp only [c6], by simp only [c7]⟩
  · simp [hr]

theorem foldSources_tables (sources : List Source) :
    ∀ st : MState,
      (sources.foldl processSource st).snapshots =
          st.snapshots ++ tableConcat "snapshots" sources ∧
        (sources.foldl processSource st).packets =
          st.packets ++ tableConcat "packets" sources ∧
        (sources.foldl processSource st).dataRows =
          st.dataRows ++ tableConcat "data" sources ∧
        (sources.foldl processSource st).alerts =
          st.alerts ++ tableConcat "alerts" sources := by
  induction sources with
  | nil => intro st; simp [tableConcat]
  | cons s rest ih =>
    intro st
    simp only [List.foldl_cons, tableConcat]
    obtain ⟨i1, i2, i3, i4⟩ := ih (processSource st s)
    obtain ⟨p1, p2, p3, p4⟩ := processSource_tables st s
    refine ⟨?_, ?_, ?_, ?_⟩
    · rw [i1, p1, List.append_assoc]
    · rw [i2, p2, List.append_assoc]
    · rw [i3, p3, List.append_assoc]
    · rw [i4, p4, List.append_assoc]

theorem accumState_tables (sources : List Source) :
    (accumState sources).snapshots = tableConcat "snapshots" sources ∧
      (accumState sources).packets = tableConcat "packets" sources ∧
      (accumState sources).dataRows = tableConcat "data" sources ∧
      (accumState sources).alerts = tableConcat "alerts" sources := by
  obtain ⟨h1, h2, h3, h4⟩ := foldSources_tables sources initState
  exact ⟨h1, h2, h3, h4⟩
theorem dedup_go (l : List String) :
    ∀ acc : List String,
      l.foldl (fun acc x => if x ∈ acc then acc else acc ++ [x]) acc =
        acc ++ dedupSpec (l.filter (fun y => y ∉ acc)) := by
  induction l with
  | nil => intro acc; simp [dedupSpec]
  | cons x xs ih =>
    intro acc
    by_cases hx : x ∈ acc
    · simp only [List.foldl_cons, if_pos hx, List.filter_cons]
      have : (decide (x ∉ acc)) = false := by simp [hx]
      rw [this]
      simp only [Bool.false_eq_true, if_false]
      exact ih acc
    · simp only [List.foldl_cons, if_neg hx, List.filter_cons]
      have : (decide (x ∉ acc)) = true := by simp [hx]
      rw [this]
      simp only [if_true]
      rw [ih (acc ++ [x])]
      have hfil : xs.filter (fun y => decide (y ∉ acc ++ [x])) =
          (xs.filter (fun y => decide (y ∉ acc))).filter (fun y => decide (y ≠ x)) := by
        rw [List.filter_filter]
        apply List.filter_congr
        intro y _
        by_cases h1 : y = x <;> by_cases h2 : y ∈ acc <;>
          simp [h1, h2, List.mem_append]
      rw [hfil]
      simp [dedupSpec, List.append_assoc]

theorem dedupKeepFirst_eq (l : List String) : dedupKeepFirst l = dedupSpec l := by
  have h := dedup_go l []
  simpa [dedupKeepFirst] using h

theorem dedupSpec_mem : ∀ (l : List String) (y : String), y ∈ dedupSpec l ↔ y ∈ l := by
  intro l
  induction l using dedupSpec.induct with
  | case1 => intro y; simp [dedupSpec]
  | case2 x xs ih =>
    intro y
    simp only [dedupSpec, List.mem_cons, ih, List.mem_filter]
    by_cases h : y = x <;> simp [h]

theorem dedupSpec_nodup : ∀ l : List String, (dedupSpec l).Nodup := by
  intro l
  induction l using dedupSpec.induct with
  | case1 => simp [dedupSpec]
  | case2 x xs ih =>
    simp only [dedupSpec, List.nodup_cons]
    refine ⟨?_, ih⟩
    intro hx
    rw [dedupSpec_mem] at hx
    simp [List.mem_filter] at hx

/-- Device document with every modelled key absent. -/
def emptyDevice : Device :=
  ⟨none, none, none, none, none, none, none, none, none, none, none⟩

/-- Device of end-to-end scenario 1, source A side. -/
def devAA : Device :=
  { emptyDevice with
    macaddr := some "AA:BB:CC:DD:EE:FF",
    first_time := some 100, last_time := some 200, packets_total := some 5 }

/-- Device of end-to-end scenario 1, source B side. -/
def devBB : Device :=
  { emptyDevice with
    macaddr := some "AA:BB:CC:DD:EE:FF",
    first_time := some 150, last_time := some 300, packets_total := some 7 }

/-- Device row with an absent hardware address. -/
def orphanDev : Device := { emptyDevice with first_time := some 7 }

/-- One packet-table row. -/
def packetRow : Row :=
  [("ts_sec", Cell.i 1), ("ts_usec", Cell.i 2), ("sourcemac", Cell.s "AA"),
   ("destmac", Cell.s "BB"), ("lat", Cell.i 10), ("lon", Cell.i 20)]

/-- One row of an arbitrary auxiliary table. -/
def fooRow : Row := [("x", Cell.i 1)]

/-- One alerts-table row. -/
def alertRow : Row := [("msg", Cell.s "alert")]

/-- Metadata row as a source file would carry it. -/
def kismetSourceRow : Row :=
  [("kismet_version", Cell.s "2023.1"), ("build_uuid", Cell.s "uuid-1"),
   ("build_compile", Cell.s "c1"), ("db_version", Cell.i 6)]

/-- Source holding an orphan device row followed by a normal one. -/
def c1src : Source := ⟨"a.kismet", true, true, [some orphanDev, some devAA], []⟩

/-- Source holding two identical packet rows and no devices table. -/
def c2src : Source := ⟨"b.kismet", true, false, [], [("packets", [packetRow, packetRow])]⟩

/-- Source holding one device and one packet row. -/
def c2wsrc : Source := ⟨"w.kismet", true, true, [some devAA], [("packets", [packetRow])]⟩

/-- Source holding one device, an arbitrary auxiliary table and an alert. -/
def c3src : Source :=
  ⟨"c.kismet", true, true, [some devAA], [("foo", [fooRow]), ("alerts", [alertRow])]⟩

/-- Source holding one device and a metadata table row. -/
def c4src : Source := ⟨"d.kismet", true, true, [some devAA], [("KISMET", [kismetSourceRow])]⟩

/-- Claim C1, counterexample.  The claim says a device row with an
empty/absent hardware address is inserted unconditionally and appears as a
separate row in the destination.  Merging `c1src`, whose devices table
holds an orphan row and one addressed row, produces a destination devices
table with exactly one row (and an accumulated device set of size one): the
orphan row was dropped by `if not mac: continue`, not inserted. -/
theorem orphan_row_dropped_cex :
    ((merge_kismet_files [c1src] false "T").1).map
        (fun o => (o.lookup "devices").map List.length) = some (some 1) ∧
      (accumState [c1src]).merged_devices.length = 1 := by
  decide

/-- Claim C1, amended: a device row whose hardware address is empty or
absent is skipped entirely by the devices loop: it is never matched against
or merged with any other row, and it is never inserted either, leaving the
accumulated state unchanged (so it does not appear in the destination). -/
theorem orphan_rows_never_merged_nor_inserted (st : MState) (d : Device)
    (h : get_device_key d = "") :
    processDeviceRow st (some d) = st := by
  unfold processDeviceRow
  simp [h]

/-- Witness for the amended claim C1 at a concrete orphan row. -/
theorem orphan_rows_never_merged_nor_inserted_witness :
    get_device_key orphanDev = "" ∧
      processDeviceRow initState (some orphanDev) = initState :=
  ⟨by decide, orphan_rows_never_merged_nor_inserted initState orphanDev (by decide)⟩

/-- Claim C2, counterexample.  The claim says that of two packet rows with
an identical composite key only the first is retained in the output.  On a
source holding the same packet row twice, both copies survive in the
accumulated packets list, and the destination holds no packets table at
all, so neither "only the first is retained" nor "rows differing in a key
component are both retained" holds of the output. -/
theorem duplicate_packet_rows_both_kept_cex :
    (accumState [c2src, c1src]).packets = [packetRow, packetRow] ∧
      ((merge_kismet_files [c2src, c1src] false "T").1).map
        (fun o => o.lookup "packets") = some none := by
  decide

/-- Claim C2, amended: packet rows are accumulated by plain concatenation
across readable sources with no deduplication whatsoever (identical rows
are all retained), and no packets table is ever written to the
destination. -/
theorem packet_rows_concatenated_not_deduped (sources : List Source) :
    (accumState sources).packets = tableConcat "packets" sources ∧
      (∀ (v : Bool) (now : String) (out : Output),
        (merge_kismet_files sources v now).1 = some out →
          out.lookup "packets" = none) := by
  refine ⟨(accumState_tables sources).2.1, ?_⟩
  intro v now out h
  rw [merge_kismet_files_fst] at h
  by_cases he : (accumState sources).merged_devices.isEmpty
  · rw [if_pos he] at h
    cases h
  · rw [if_neg he] at h
    have hout : writeOutput (accumState sources) now = out := Option.some.inj h
    rw [← hout]
    rfl

/-- Witness for the amended claim C2 on a concrete successful run. -/
theorem packet_rows_concatenated_not_deduped_witness :
    (merge_kismet_files [c2wsrc] false "T").1 =
        some (writeOutput (accumState [c2wsrc]) "T") ∧
      (writeOutput (accumState [c2wsrc]) "T").lookup "packets" = none :=
  ⟨by decide,
   (packet_rows_concatenated_not_deduped [c2wsrc]).2 false "T" _ (by decide)⟩

/-- Claim C3, counterexample.  The claim says every row of a table with no
specialized policy is carried through into the destination.  Merging
`c3src`, which carries an auxiliary table `foo` and an `alerts` row, yields
a destination holding only a `devices` and a `KISMET` table: neither the
`foo` row nor the `alerts` row is written. -/
theorem aux_rows_absent_from_destination_cex :
    ((merge_kismet_files [c3src] false "T").1).map (fun o => o.map Prod.fst) =
      some ["devices", "KISMET"] := by
  decide

/-- Claim C3, amended: only the four recognized auxiliary tables
(snapshots, packets, data, alerts) are read, and their rows are accumulated
in memory as a concatenation across readable sources preserving arrival
order; arbitrary other tables are ignored, and none of the accumulated rows
reach the destination, whose tables are exactly `devices` and `KISMET`. -/
theorem aux_tables_memory_only (sources : List Source) (v : Bool) (now : String) :
    ((merge_kismet_files sources v now).1).map (fun o => o.map Prod.fst) =
        (if (accumState sources).merged_devices.isEmpty then none
         else some ["devices", "KISMET"]) ∧
      (accumState sources).snapshots = tableConcat "snapshots" sources ∧
      (accumState sources).dataRows = tableConcat "data" sources ∧
      (accumState sources).alerts = tableConcat "alerts" sources := by
  obtain ⟨h1, h2, h3, h4⟩ := accumState_tables sources
  refine ⟨?_, h1, h3, h4⟩
  rw [merge_kismet_files_fst]
  split <;> rfl

/-- Claim C4, counterexample.  The claim says the single destination
metadata row equals the first source's metadata row.  Merging `c4src`,
whose KISMET table holds `kismetSourceRow`, produces a destination KISMET
table holding exactly the synthetic row, which differs from the source's
row. -/
theorem metadata_row_not_from_first_source_cex :
    ((merge_kismet_files [c4src] false "T").1).map (fun o => o.lookup "KISMET") =
        some (some [kismetRow "T"]) ∧
      kismetRow "T" ≠ kismetSourceRow := by
  decide

/-- Claim C4, amended: on success the destination holds exactly one
metadata row, but it is a synthetic marker
`('merged', 'wifi-sort-merge', merge timestamp, 6)`; metadata rows of the
sources are never read and do not influence it. -/
theorem metadata_row_synthetic_singleton (sources : List Source) (v : Bool)
    (now : String) :
    ((merge_kismet_files sources v now).1).map (fun o => o.lookup "KISMET") =
      (if (accumState sources).merged_devices.isEmpty then none
       else some (some [kismetRow now])) := by
  rw [merge_kismet_files_fst]
  split <;> rfl

/-- Claim C5: for two device documents, the merge sums the three volume
counters, keeps the minimum of the non-zero first-seen values (adopting the
incoming value only when it is greater than 0, leaving the existing field
unchanged when it is not), and takes the maximum of the two last-seen
values with an absent side read as 0; on scenario 1 (first 100/last
200/packets 5 against first 150/last 300/packets 7) this gives first 100,
last 300, packets 12. -/
theorem merge_counters_and_timestamps (e n : Device) :
    (merge_device_json e n).packets_total =
        some (e.packets_total.getD 0 + n.packets_total.getD 0) ∧
      (merge_device_json e n).packets_data =
        some (e.packets_data.getD 0 + n.packets_data.getD 0) ∧
      (merge_device_json e n).datasize =
        some (e.datasize.getD 0 + n.datasize.getD 0) ∧
      (merge_device_json e n).first_time =
        (if n.first_time.getD 0 > 0 then
          some (if e.first_time.getD 0 = 0 then n.first_time.getD 0
            else min (e.first_time.getD 0) (n.first_time.getD 0))
         else e.first_time) ∧
      (merge_device_json e n).last_time =
        some (max (e.last_time.getD 0) (n.last_time.getD 0)) ∧
      (merge_device_json devAA devBB).first_time = some 100 ∧
      (merge_device_json devAA devBB).last_time = some 300 ∧
      (merge_device_json devAA devBB).packets_total = some 12 :=
  ⟨rfl, rfl, rfl, rfl, rfl, by decide, by decide, by decide⟩

/-- Device of end-to-end scenario 2, source A side. -/
def sigA : Device :=
  { emptyDevice with
    macaddr := some "AA:BB:CC:DD:EE:FF", last_time := some 200,
    signal := some ⟨some (-40), some (-80), some (-50), false⟩ }

/-- Device of end-to-end scenario 2, source B side. -/
def sigB : Device :=
  { emptyDevice with
    macaddr := some "AA:BB:CC:DD:EE:FF", last_time := some 300,
    signal := some ⟨some (-35), some (-90), some (-45), false⟩ }

/-- Device with the later last-seen time whose signal block lacks a
last_signal key. -/
def sigOnlyMax : Device :=
  { emptyDevice with
    macaddr := some "AA:BB:CC:DD:EE:FF", last_time := some 300,
    signal := some ⟨some (-35), none, none, false⟩ }

/-- Claim C6, counterexample.  The claim says last_signal is taken from
whichever record has the later record-level last_seen (here `sigOnlyMax`,
last_seen 300 against 200).  Instead the code copies the incoming value
only when the incoming block carries one; here it does not, and the merged
record keeps the existing side's -50 rather than the later record's (absent)
value. -/
theorem last_signal_not_from_later_record_cex :
    sigA.last_time.getD 0 < sigOnlyMax.last_time.getD 0 ∧
      sigLastD sigOnlyMax = none ∧
      sigLastD (merge_device_json sigA sigOnlyMax) = some (-50) ∧
      sigLastD (merge_device_json sigA sigOnlyMax) ≠ sigLastD sigOnlyMax := by
  decide

/-- Claim C6, amended: if the incoming record has no (truthy) signal block
the existing block is kept; if the existing record has none the incoming
block is adopted wholesale; otherwise max_signal is the maximum and
min_signal the minimum of the two sides with an absent side ignored, and
last_signal is copied from the incoming side exactly when the incoming
record-level last_seen is greater than or equal to the existing one AND the
incoming block carries a last_signal value - otherwise the existing value
is kept.  The comparison consults the record-level last-seen field. -/
theorem signal_merge_field_rules (e n : Device) :
    (sigTruthy n.signal = false → (merge_device_json e n).signal = e.signal) ∧
      (sigTruthy n.signal = true → sigTruthy e.signal = false →
        (merge_device_json e n).signal = n.signal) ∧
      (sigTruthy n.signal = true → sigTruthy e.signal = true →
        sigMaxD (merge_device_json e n) = optMax (sigMaxD e) (sigMaxD n) ∧
          sigMinD (merge_device_json e n) = optMin (sigMinD e) (sigMinD n) ∧
          sigLastD (merge_device_json e n) =
            (if e.last_time.getD 0 ≤ n.last_time.getD 0 ∧ (sigLastD n).isSome
             then sigLastD n else sigLastD e)) := by
  refine ⟨?_, ?_, ?_⟩
  · intro h
    show sigMerge (e.last_time.getD 0) (n.last_time.getD 0) e.signal n.signal =
      e.signal
    unfold sigMerge
    rw [h]
    simp
  · intro hn he
    show sigMerge (e.last_time.getD 0) (n.last_time.getD 0) e.signal n.signal =
      n.signal
    unfold sigMerge
    rw [hn, he]
    simp
  · intro hn he
    refine ⟨sigMaxD_merge e n, sigMinD_merge e n, ?_⟩
    have h := sigMerge_bind_last (e.last_time.getD 0) (n.last_time.getD 0)
      e.signal n.signal he hn
    show (sigMerge (e.last_time.getD 0) (n.last_time.getD 0)
      e.signal n.signal).bind SignalB.last_signal = _
    rw [h]
    simp only [sigLastD]
    split_ifs <;> first
      | rfl
      | tauto

/-- Witness for the amended claim C6 on scenario 2: merging signal
max -40/min -80/last_seen 200/last_signal -50 with max -35/min -90/
last_seen 300/last_signal -45 yields max -35, min -90, last_signal -45. -/
theorem signal_merge_field_rules_witness :
    sigMaxD (merge_device_json sigA sigB) = some (-35) ∧
      sigMinD (merge_device_json sigA sigB) = some (-90) ∧
      sigLastD (merge_device_json sigA sigB) = some (-45) := by
  obtain ⟨-, -, h3⟩ := signal_merge_field_rules sigA sigB
  obtain ⟨m1, m2, m3⟩ := h3 (by decide) (by decide)
  refine ⟨?_, ?_, ?_⟩
  · rw [m1]; decide
  · rw [m2]; decide
  · rw [m3]; decide

theorem optMax_right_comm (x y z : Option Int) :
    optMax (optMax x y) z = optMax (optMax x z) y := by
  rw [optMax_assoc, optMax_comm y z, ← optMax_assoc]

theorem optMin_right_comm (x y z : Option Int) :
    optMin (optMin x y) z = optMin (optMin x z) y := by
  rw [optMin_assoc, optMin_comm y z, ← optMin_assoc]

/-- Device records sharing one address and one last-seen time 100, with
pairwise distinct last-signal values. -/
def tieA : Device :=
  { emptyDevice with
    macaddr := some "AA:BB:CC:DD:EE:FF", last_time := some 100,
    signal := some ⟨some (-1), some (-1), some (-1), false⟩ }

/-- Second record with last-seen 100 and last_signal -2. -/
def tieB : Device :=
  { emptyDevice with
    macaddr := some "AA:BB:CC:DD:EE:FF", last_time := some 100,
    signal := some ⟨some (-2), some (-2), some (-2), false⟩ }

/-- Third record with last-seen 100 and last_signal -3. -/
def tieC : Device :=
  { emptyDevice with
    macaddr := some "AA:BB:CC:DD:EE:FF", last_time := some 100,
    signal := some ⟨some (-3), some (-3), some (-3), false⟩ }

/-- Record with distinct last-seen 100 and a full signal block. -/
def wA : Device :=
  { emptyDevice with
    macaddr := some "AA:BB:CC:DD:EE:FF", first_time := some 100,
    last_time := some 100, packets_total := some 1, packets_data := some 1,
    datasize := some 10,
    signal := some ⟨some (-10), some (-60), some (-20), false⟩ }

/-- Record with distinct last-seen 250 and a full signal block. -/
def wB : Device :=
  { emptyDevice with
    macaddr := some "AA:BB:CC:DD:EE:FF", first_time := some 90,
    last_time := some 250, packets_total := some 2, packets_data := some 3,
    datasize := some 20,
    signal := some ⟨some (-5), some (-70), some (-25), false⟩ }

/-- Record with distinct last-seen 180 and a full signal block. -/
def wC : Device :=
  { emptyDevice with
    macaddr := some "AA:BB:CC:DD:EE:FF", first_time := some 95,
    last_time := some 180, packets_total := some 4, packets_data := some 5,
    datasize := some 30,
    signal := some ⟨some (-7), some (-65), some (-22), false⟩ }

/-- Claim C7, counterexample.  The claim asserts the three groupings agree
on last_signal for all records sharing one address.  With three records
whose record-level last-seen times are all 100 (ties favor the incoming
side), `merge(merge(A,B),C)` ends with C's last_signal -3 while
`merge(merge(A,C),B)` ends with B's -2. -/
theorem merge_grouping_tie_cex :
    sigLastD (merge_device_json (merge_device_json tieA tieB) tieC) ≠
      sigLastD (merge_device_json (merge_device_json tieA tieC) tieB) := by
  decide

theorem merge_pt_getD (e n : Device) :
    (merge_device_json e n).packets_total.getD 0 =
      e.packets_total.getD 0 + n.packets_total.getD 0 := rfl

theorem merge_pd_getD (e n : Device) :
    (merge_device_json e n).packets_data.getD 0 =
      e.packets_data.getD 0 + n.packets_data.getD 0 := rfl

theorem merge_ds_getD (e n : Device) :
    (merge_device_json e n).datasize.getD 0 =
      e.datasize.getD 0 + n.datasize.getD 0 := rfl

theorem merge_lt_getD (e n : Device) :
    (merge_device_json e n).last_time.getD 0 =
      max (e.last_time.getD 0) (n.last_time.getD 0) := rfl

/-- Claim C7, amended: for three records A, B, C sharing one address, the
three groupings `merge(merge(A,B),C)`, `merge(merge(A,C),B)` and
`merge(A,merge(B,C))` agree on the three volume counters, first_seen,
last_seen, max_signal and min_signal, and also on last_signal provided the
records carry nonnegative first-seen values, each has a signal block with a
last_signal value, and B and C do not share one record-level last-seen time
(such a tie makes last_signal depend on merge order, as the counterexample
shows). -/
theorem merge_grouping_invariant (A B C : Device)
    (hfA : 0 ≤ A.first_time.getD 0) (hfB : 0 ≤ B.first_time.getD 0)
    (hfC : 0 ≤ C.first_time.getD 0)
    (hsA : sigTruthy A.signal = true) (hsB : sigTruthy B.signal = true)
    (hsC : sigTruthy C.signal = true)
    (hpA : (sigLastD A).isSome = true) (hpB : (sigLastD B).isSome = true)
    (hpC : (sigLastD C).isSome = true)
    (hBC : B.last_time.getD 0 ≠ C.last_time.getD 0) :
    ((merge_device_json (merge_device_json A B) C).packets_total =
        (merge_device_json (merge_device_json A C) B).packets_total ∧
      (merge_device_json (merge_device_json A B) C).packets_total =
        (merge_device_json A (merge_device_json B C)).packets_total) ∧
    ((merge_device_json (merge_device_json A B) C).packets_data =
        (merge_device_json (merge_device_json A C) B).packets_data ∧
      (merge_device_json (merge_device_json A B) C).packets_data =
        (merge_device_json A (merge_device_json B C)).packets_data) ∧
    ((merge_device_json (merge_device_json A B) C).datasize =
        (merge_device_json (merge_device_json A C) B).datasize ∧
      (merge_device_json (merge_device_json A B) C).datasize =
        (merge_device_json A (merge_device_json B C)).datasize) ∧
    ((merge_device_json (merge_device_json A B) C).first_time =
        (merge_device_json (merge_device_json A C) B).first_time ∧
      (merge_device_json (merge_device_json A B) C).first_time =
        (merge_device_json A (merge_device_json B C)).first_time) ∧
    ((merge_device_json (merge_device_json A B) C).last_time =
        (merge_device_json (merge_device_json A C) B).last_time ∧
      (merge_device_json (merge_device_json A B) C).last_time =
        (merge_device_json A (merge_device_json B C)).last_time) ∧
    (sigMaxD (merge_device_json (merge_device_json A B) C) =
        sigMaxD (merge_device_json (merge_device_json A C) B) ∧
      sigMaxD (merge_device_json (merge_device_json A B) C) =
        sigMaxD (merge_device_json A (merge_device_json B C))) ∧
    (sigMinD (merge_device_json (merge_device_json A B) C) =
        sigMinD (merge_device_json (merge_device_json A C) B) ∧
      sigMinD (merge_device_json (merge_device_json A B) C) =
        sigMinD (merge_device_json A (merge_device_json B C))) ∧
    (sigLastD (merge_device_json (merge_device_json A B) C) =
        sigLastD (merge_device_json (merge_device_json A C) B) ∧
      sigLastD (merge_device_json (merge_device_json A B) C) =
        sigLastD (merge_device_json A (merge_device_json B C))) := by
  refine ⟨⟨?_, ?_⟩, ⟨?_, ?_⟩, ⟨?_, ?_⟩, ⟨?_, ?_⟩, ⟨?_, ?_⟩, ?_, ?_, ?_⟩
  · exact congrArg some (by rw [merge_pt_getD, merge_pt_getD]; ring)
  · exact congrArg some (by rw [merge_pt_getD, merge_pt_getD]; ring)
  · exact congrArg some (by rw [merge_pd_getD, merge_pd_getD]; ring)
  · exact congrArg some (by rw [merge_pd_getD, merge_pd_getD]; ring)
  · exact congrArg some (by rw [merge_ds_getD, merge_ds_getD]; ring)
  · exact congrArg some (by rw [merge_ds_getD, merge_ds_getD]; ring)
  · exact ftMerge_swap A.first_time B.first_time C.first_time hfA hfB hfC
  · exact ftMerge_assoc A.first_time B.first_time C.first_time hfA hfB hfC
  · exact congrArg some (by rw [merge_lt_getD, merge_lt_getD]; omega)
  · exact congrArg some (by rw [merge_lt_getD, merge_lt_getD]; omega)
  · constructor
    · simp only [sigMaxD_merge]
      exact optMax_right_comm _ _ _
    · simp only [sigMaxD_merge]
      exact optMax_assoc _ _ _
  · constructor
    · simp only [sigMinD_merge]
      exact optMin_right_comm _ _ _
    · simp only [sigMinD_merge]
      exact optMin_assoc _ _ _
  · have tAB : sigTruthy (merge_device_json A B).signal = true :=
      sigTruthy_merge A B hsA hsB hpA
    have tAC : sigTruthy (merge_device_json A C).signal = true :=
      sigTruthy_merge A C hsA hsC hpA
    have tBC : sigTruthy (merge_device_json B C).signal = true :=
      sigTruthy_merge B C hsB hsC hpB
    have pBC : (sigLastD (merge_device_json B C)).isSome = true :=
      sigLastD_merge_isSome B C hsB hsC hpB
    have lsAB : sigLastD (merge_device_json A B) =
        if A.last_time.getD 0 ≤ B.last_time.getD 0 then sigLastD B
        else sigLastD A := sigLastD_merge A B hsA hsB hpB
    have lsAC : sigLastD (merge_device_json A C) =
        if A.last_time.getD 0 ≤ C.last_time.getD 0 then sigLastD C
        else sigLastD A := sigLastD_merge A C hsA hsC hpC
    have lsBC : sigLastD (merge_device_json B C) =
        if B.last_time.getD 0 ≤ C.last_time.getD 0 then sigLastD C
        else sigLastD B := sigLastD_merge B C hsB hsC hpC
    have ls1 : sigLastD (merge_device_json (merge_device_json A B) C) =
        if max (A.last_time.getD 0) (B.last_time.getD 0) ≤ C.last_time.getD 0
        then sigLastD C else sigLastD (merge_device_json A B) :=
      sigLastD_merge (merge_device_json A B) C tAB hsC hpC
    have ls2 : sigLastD (merge_device_json (merge_device_json A C) B) =
        if max (A.last_time.getD 0) (C.last_time.getD 0) ≤ B.last_time.getD 0
        then sigLastD B else sigLastD (merge_device_json A C) :=
      sigLastD_merge (merge_device_json A C) B tAC hsB hpB
    have ls3 : sigLastD (merge_device_json A (merge_device_json B C)) =
        if A.last_time.getD 0 ≤ max (B.last_time.getD 0) (C.last_time.getD 0)
        then sigLastD (merge_device_json B C) else sigLastD A :=
      sigLastD_merge A (merge_device_json B C) hsA tBC pBC
    rw [ls1, ls2, ls3, lsAB, lsAC, lsBC]
    constructor
    · simp only [max_le_iff, le_max_iff]
      split_ifs <;> first
        | rfl
        | (exfalso; omega)
    · simp only [max_le_iff, le_max_iff]
      split_ifs <;> first
        | rfl
        | (exfalso; omega)

/-- Witness for the amended claim C7 at three concrete records with
pairwise distinct last-seen times. -/
theorem merge_grouping_invariant_witness :
    (merge_device_json (merge_device_json wA wB) wC).packets_total =
        (merge_device_json (merge_device_json wA wC) wB).packets_total ∧
      sigLastD (merge_device_json (merge_device_json wA wB) wC) =
        sigLastD (merge_device_json wA (merge_device_json wB wC)) := by
  obtain ⟨h1, h2, h3, h4, h5, h6, h7, h8⟩ :=
    merge_grouping_invariant wA wB wC (by decide) (by decide) (by decide)
      (by decide) (by decide) (by decide) (by decide) (by decide) (by decide)
      (by decide)
  exact ⟨h1.1, h8.2⟩

/-- Pre-existing content of the destination path. -/
def preOut : Output := [("devices", [[("devmac", Cell.s "OLD")]])]

/-- Claim C8: when, after every source is processed, the accumulated device
set is empty, the run ends in failure (the `return False` of the no-devices
branch, reported as `NoData`), no output is written, and a pre-existing
file at the destination path is left untouched, because the removal of the
old destination happens only on the success path, immediately before the
write phase. -/
theorem nodata_failure_preserves_destination (sources : List Source)
    (v : Bool) (now : String) (pre : Option Output)
    (h : (accumState sources).merged_devices = []) :
    (merge_kismet_files sources v now).1 = none ∧
      destinationAfter pre sources v now = pre := by
  have h1 : (merge_kismet_files sources v now).1 = none := by
    rw [merge_kismet_files_fst, if_pos (by simp [h])]
  refine ⟨h1, ?_⟩
  unfold destinationAfter
  rw [h1]

/-- Witness for claim C8 on an empty source list with a pre-existing
destination. -/
theorem nodata_failure_preserves_destination_witness :
    (accumState ([] : List Source)).merged_devices = [] ∧
      ((merge_kismet_files [] false "T").1 = none ∧
        destinationAfter (some preOut) [] false "T" = some preOut) :=
  ⟨rfl, nodata_failure_preserves_destination [] false "T" (some preOut) rfl⟩

/-- Claim C9: for any fixed source list and timestamp, running the merge
with the verbosity flag on and off yields the same accumulated state
(merged device set, counters and per-table contents) and the same
success/failure result; verbosity only changes the log. -/
theorem verbosity_no_effect (sources : List Source) (now : String) :
    (sources.foldl (processSourceV true) (initState, [])).1 =
        (sources.foldl (processSourceV false) (initState, [])).1 ∧
      (merge_kismet_files sources true now).1 =
        (merge_kismet_files sources false now).1 := by
  constructor
  · rw [foldSourcesV_fst, foldSourcesV_fst]
  · rw [merge_kismet_files_fst, merge_kismet_files_fst]

/-- Glob expansion used by the C10 witness: one pattern naming the same
file under two spellings, one of them twice. -/
def cexpand : String → List String :=
  fun p => if p = "caps" then ["a", "a", "b/a"] else []

/-- File-existence oracle used by the C10 witness. -/
def cfexists : String → Bool := fun _ => false

/-- Path resolution used by the C10 witness: the two spellings "a" and
"b/a" resolve to the same file. -/
def cres : String → String := fun s => if s = "b/a" then "a" else s

/-- Claim C10: after glob expansion the input list is de-duplicated by
exact path string before the merge is invoked - the first occurrence is
kept and order is otherwise preserved (`dedupSpec` is that specification),
so every path reaches the merge at most once and naming a file twice with
one spelling does not double the additive counters - and entries resolving
to the output path are removed; but two different spellings are never
collapsed, even when they resolve to the same file: both survive to the
merge, so that file is processed twice. -/
theorem input_path_resolution_dedup (expand : String → List String)
    (fexists : String → Bool) (res : String → String)
    (patterns : List String) (output : String) :
    resolveInputs expand fexists res patterns output =
        (dedupSpec (rawInputs expand fexists patterns)).filter
          (fun f => res f ≠ res output) ∧
      (∀ f : String,
        (resolveInputs expand fexists res patterns output).count f ≤ 1) ∧
      (∀ f g : String, f ≠ g → res f = res g →
        f ∈ rawInputs expand fexists patterns →
        g ∈ rawInputs expand fexists patterns →
        res f ≠ res output → res g ≠ res output →
        f ∈ resolveInputs expand fexists res patterns output ∧
          g ∈ resolveInputs expand fexists res patterns output) := by
  have heq : resolveInputs expand fexists res patterns output =
      (dedupSpec (rawInputs expand fexists patterns)).filter
        (fun f => res f ≠ res output) := by
    unfold resolveInputs
    rw [dedupKeepFirst_eq]
  refine ⟨heq, ?_, ?_⟩
  · intro f
    have hnd : (resolveInputs expand fexists res patterns output).Nodup := by
      rw [heq]
      exact (dedupSpec_nodup _).filter _
    exact List.nodup_iff_count_le_one.mp hnd f
  · intro f g hfg hres hf hg hfo hgo
    constructor
    · rw [heq, List.mem_filter, dedupSpec_mem]
      exact ⟨hf, by simpa using hfo⟩
    · rw [heq, List.mem_filter, dedupSpec_mem]
      exact ⟨hg, by simpa using hgo⟩

/-- Witness for claim C10: the pattern expands to `["a", "a", "b/a"]`; the
exact duplicate of "a" is collapsed, while "b/a", a different spelling of
the same resolved file, survives next to "a". -/
theorem input_path_resolution_dedup_witness :
    "a" ∈ resolveInputs cexpand cfexists cres ["caps"] "out" ∧
      "b/a" ∈ resolveInputs cexpand cfexists cres ["caps"] "out" :=
  (input_path_resolution_dedup cexpand cfexists cres ["caps"] "out").2.2
    "a" "b/a" (by decide) (by decide) (by decide) (by decide)
    (by decide) (by decide)
